import Mathlib

/-!
Verification development for the voice-activity-gated recording and
transcription module (`src/transcription.py`).

The source module has three parts relevant to the specified behaviour:

* `process_transcription(transcription, config)` — a pure text post-processor;
* the polling loop inside `record_and_transcribe` that consumes fixed-size
  audio frames, classifies each as speech / non-speech via the VAD, tracks the
  silence run-length, and decides when to stop recording;
* the sequential tail of `record_and_transcribe` that writes the recording to
  a temporary WAV file, dispatches it to a remote API or a local model,
  removes the file, and reports status / result to the caller.

The embedding below mirrors the source line by line.  External effects — the
VAD verdict for each frame, the polled cancel flag, the transcription
response, and exceptions raised by the audio device, the filesystem, or the
dispatch call — are inputs to the model (per-frame fields and an `Env`
record of fault-injection points), so theorems quantify over every possible
behaviour of the collaborators.
-/

namespace WhisperWriter

/-- Recognized configuration options of the module that influence the
behaviour modelled here (`config['...']` keys in the source).  The remote /
local collaborator option blocks (`api_options`, `local_model_options`) are
passed through to the collaborators unchanged and surface in the model only
through the collaborator's response (see `Env`). -/
structure Config where
  print_to_terminal : Bool
  use_api : Bool
  remove_trailing_period : Bool
  add_trailing_space : Bool
  remove_capitalization : Bool
  sample_rate : Nat
  silence_duration : Nat
deriving DecidableEq, Repr

/-- Python `s.lower()` on the character-list representation of the text. -/
def pyLower (s : String) : String := ⟨s.data.map Char.toLower⟩

/-- Python `s.endswith('.')`: whether the last character is a period. -/
def pyEndsPeriod (s : String) : Bool := s.data.getLast? == some '.'

/-- Python `s[:-1]`: the text with its last character removed. -/
def pyDropLast (s : String) : String := ⟨s.data.dropLast⟩

/-- Python `s.strip()`: leading and trailing whitespace removed. -/
def pyStrip (s : String) : String :=
  ⟨((s.data.dropWhile Char.isWhitespace).reverse.dropWhile Char.isWhitespace).reverse⟩

/-- Python `''.join(l)`. -/
def pyJoin (l : List String) : String := ⟨(l.map String.data).flatten⟩

/-- Source function `process_transcription(transcription, config=None)`:
with a falsy config the text passes through unchanged; otherwise up to three
transforms run in the source's fixed order (strip one trailing period,
append one trailing space, lowercase), each gated by its flag. -/
def process_transcription (transcription : String) (config : Option Config) : String :=
  match config with
  | none => transcription
  | some cfg =>
    let t1 := if cfg.remove_trailing_period && pyEndsPeriod transcription then
                pyDropLast transcription
              else transcription
    let t2 := if cfg.add_trailing_space then t1 ++ " " else t1
    if cfg.remove_capitalization then pyLower t2 else t2

/-- Post-processing pipeline written from the specification's words
(§4.5: "optionally strips one trailing period, optionally appends one
trailing space, optionally lowercases — applied in that fixed order when
each option is enabled"), used to compare the source function against the
spec. -/
def process_spec (strip_period add_space lowercase : Bool) (text : String) : String :=
  let afterStrip := if strip_period && pyEndsPeriod text then pyDropLast text else text
  let afterSpace := if add_space then afterStrip ++ " " else afterStrip
  if lowercase then pyLower afterSpace else afterSpace

/-- Frame duration in milliseconds, hard-coded to 30 in the source. -/
def frame_duration : Nat := 30

/-- Threshold derivation `num_silence_frames = silence_duration // frame_duration` (Python floor
division) from the source. -/
def num_silence_frames (silence_duration : Nat) : Nat :=
  silence_duration / frame_duration

/-- Frame size `sample_rate * frame_duration // 1000`: the number of samples per frame
sliced off the capture buffer in the source loop. -/
def frame_size (sample_rate : Nat) : Nat :=
  sample_rate * frame_duration / 1000

/-- One frame as consumed by one iteration of the loop: its samples, the
VAD verdict `vad.is_speech(...)` for it, and the value the polled
`cancel_flag()` returns during that iteration. -/
structure FrameInput where
  samples : List Int
  is_speech : Bool
  cancel : Bool
deriving DecidableEq, Repr

/-- The mutable state of the loop: the `recording` sample list and the
`num_silent_frames` counter. -/
structure LoopState where
  recording : List Int
  numSilentFrames : Nat
deriving DecidableEq, Repr

/-- The VAD bookkeeping of one iteration (source lines 63-69): a speech
frame is appended to the recording and resets the silence counter; a
non-speech frame increments the counter only when the recording is
non-empty. -/
def stepVad (s : LoopState) (f : FrameInput) : LoopState :=
  if f.is_speech then
    { recording := s.recording ++ f.samples, numSilentFrames := 0 }
  else if 0 < s.recording.length then
    { s with numSilentFrames := s.numSilentFrames + 1 }
  else s

/-- Exit reason of the loop: `"Silence"` or `"Hotkey pressed"` in the
source. -/
inductive ExitReason where
  | silence
  | hotkey
deriving DecidableEq, Repr

/-- What the loop produces when it breaks: the reason, whether
`recording_thread.stop()` was invoked, the final loop state, and the value
the cancel flag held on the exiting iteration. -/
structure ExitInfo where
  reason : ExitReason
  threadStopped : Bool
  state : LoopState
  cancelFlag : Bool
deriving DecidableEq, Repr

/-- The `while True` loop of `record_and_transcribe` (source lines 56-80),
run over a finite trace of frames.  Each iteration applies `stepVad`, then
checks `num_silent_frames >= num_silence_frames or cancel_flag()`; when that
holds but `len(recording) < sample_rate` the iteration `continue`s; when it
holds with enough recording the loop breaks, setting the reason to
`"Hotkey pressed"` when the cancel flag is up and then overwriting it with
`"Silence"` (and stopping the recording thread) when the silence threshold
is met.  `none` means the trace was exhausted without the loop exiting. -/
def runLoop (sampleRate threshold : Nat) (recordingThread : Bool) :
    List FrameInput → LoopState → Option ExitInfo
  | [], _ => none
  | f :: rest, s =>
    let s' := stepVad s f
    if threshold ≤ s'.numSilentFrames ∨ f.cancel = true then
      if s'.recording.length < sampleRate then
        runLoop sampleRate threshold recordingThread rest s'
      else
        some { reason := if threshold ≤ s'.numSilentFrames then .silence else .hotkey
               threadStopped := recordingThread && decide (threshold ≤ s'.numSilentFrames)
               state := s'
               cancelFlag := f.cancel }
    else
      runLoop sampleRate threshold recordingThread rest s'

/-- The behaviour of the external collaborators and fault-injection points
of one session.  `loopFault` stands for any exception raised while opening
the input stream or during the capture/classify loop (device error,
malformed-frame VAD error, ...); `writeFault` for an exception while writing
the WAV data after `tempfile.NamedTemporaryFile` has created the file;
`dispatchFault` for an exception in the API call, the local-model
construction, or local inference.  `apiText` is `response.get('text')` of
the remote call (`none` = absent field); `localSegments` are the segment
texts returned by the local model. -/
structure Env where
  loopFault : Bool
  writeFault : Bool
  dispatchFault : Bool
  apiText : Option String
  localSegments : List String
deriving DecidableEq, Repr

/-- Observable outcome of one call to `record_and_transcribe`: the returned
value (`none` models Python's implicit `return None` on the exception path,
`some s` a returned string), the `(tag, message)` pairs pushed to the status
queue in order, and whether the temporary WAV file still exists on disk when
the call returns. -/
structure SessionOutcome where
  ret : Option String
  statuses : List (String × String)
  fileExists : Bool
deriving DecidableEq, Repr

/-- Outcome of every exception path: the boundary handler prints the
traceback, pushes `('error', 'Error')` and falls off the function, so the
caller receives `None`.  `prev` are the statuses already pushed before the
exception; `fileLeft` records whether the temporary file had been created
and not yet removed. -/
def errorOutcome (prev : List (String × String)) (fileLeft : Bool) : SessionOutcome :=
  { ret := none, statuses := prev ++ [("error", "Error")], fileExists := fileLeft }

/-- The sequential tail of `record_and_transcribe` after the loop has
broken (source lines 86-139):
1. `tempfile.NamedTemporaryFile(delete=False)` creates the WAV file; an
   exception while writing the WAV data (`env.writeFault`) leaves it on
   disk;
2. `('transcribing', 'Transcribing...')` is pushed, then the dispatch runs:
   the API branch yields `response.get('text')`, the local branch joins the
   segment texts (never `None`); a dispatch exception leaves the file on
   disk;
3. `os.remove` deletes the file;
4. line 132 evaluates `result.strip()` when `print_to_terminal` is set,
   which raises `AttributeError` when `result` is `None`;
5. `('idle', '')` is pushed and
   `process_transcription(result.strip(), config) if result else ''` is
   returned. -/
def afterLoop (env : Env) (c : Config) : SessionOutcome :=
  if env.writeFault then errorOutcome [] true
  else
    let prev := [("transcribing", "Transcribing...")]
    if env.dispatchFault then errorOutcome prev true
    else
      let result : Option String :=
        if c.use_api then env.apiText else some (pyJoin env.localSegments)
      match result with
      | none =>
        if c.print_to_terminal then errorOutcome prev false
        else { ret := some "", statuses := prev ++ [("idle", "")], fileExists := false }
      | some s =>
        { ret := some (if s = "" then "" else process_transcription (pyStrip s) (some c))
          statuses := prev ++ [("idle", "")]
          fileExists := false }

/-- Source function `record_and_transcribe(status_queue, cancel_flag, config, local_model,
recording_thread)` (source lines 37-139), as a function of the collaborator
behaviour `env`, the configuration, and the finite frame trace.  `none`
means the loop never exited (the real loop would still be polling).

Control flow mirrored from the source:
1. the input stream is opened and the loop runs — any exception there is
   `env.loopFault` (the temporary file does not exist yet);
2. line 55 evaluates `config['print_to_terminal']` unconditionally; with a
   falsy config this raises `TypeError` before any frame is consumed;
3. the loop (`runLoop`) runs with `sample_rate` and `num_silence_frames`
   derived from the config (defaults 16000 / 900 ms when the config is
   falsy, lines 38-42);
4. once the loop breaks, `afterLoop` performs the WAV persist, dispatch,
   cleanup and reporting steps. -/
def record_and_transcribe (env : Env) (config : Option Config)
    (frames : List FrameInput) (recording_thread : Bool) :
    Option SessionOutcome :=
  let sample_rate := match config with | some c => c.sample_rate | none => 16000
  let silence_duration := match config with | some c => c.silence_duration | none => 900
  if env.loopFault then
    some (errorOutcome [] false)
  else
    match config with
    | none => some (errorOutcome [] false)
    | some c =>
      match runLoop sample_rate (num_silence_frames silence_duration)
          recording_thread frames { recording := [], numSilentFrames := 0 } with
      | none => none
      | some _ => some (afterLoop env c)

/-- The concatenation, in arrival order, of the samples of the
speech-classified frames of a trace — the shape the `recording` list takes
(only `is_speech` frames are ever `extend`ed onto it, source line 65). -/
def speechConcat (fs : List FrameInput) : List Int :=
  ((fs.filter fun f => f.is_speech).map fun f => f.samples).flatten

/-- A one-sample speech frame, cancel flag down. -/
def exFrameSpeech : FrameInput := { samples := [0], is_speech := true, cancel := false }

/-- An empty-sample non-speech frame, cancel flag down. -/
def exFrameSilent : FrameInput := { samples := [], is_speech := false, cancel := false }

/-- An empty-sample non-speech frame with the cancel flag asserted. -/
def exFrameSilentCancel : FrameInput := { samples := [], is_speech := false, cancel := true }

/-- A one-sample non-speech frame, cancel flag down. -/
def exFrameSilent1 : FrameInput := { samples := [0], is_speech := false, cancel := false }

/-- A small configuration: remote dispatch, no printing, no post-processing,
sample rate 1, silence duration 30 ms (threshold 1 frame). -/
def exConfig : Config :=
  { print_to_terminal := false, use_api := true, remove_trailing_period := false
    add_trailing_space := false, remove_capitalization := false
    sample_rate := 1, silence_duration := 30 }

/-- Variant of `exConfig` with terminal printing enabled. -/
def exConfigPrint : Config := { exConfig with print_to_terminal := true }

/-- A fault-free environment whose remote response carries the text
`"hello"`. -/
def exEnvOk : Env :=
  { loopFault := false, writeFault := false, dispatchFault := false
    apiText := some "hello", localSegments := [] }

/-- A fault-free environment whose remote response carries no text field. -/
def exEnvNoText : Env := { exEnvOk with apiText := none }

/-- A fault-free environment whose remote response carries an empty text
field. -/
def exEnvEmptyText : Env := { exEnvOk with apiText := some "" }

/-- An environment in which the transcription dispatch raises. -/
def exEnvDispatchFault : Env := { exEnvOk with dispatchFault := true }

/-- Thirty-four one-sample speech frames followed by one one-sample
non-speech frame: at sample rate 34 (frame size 1) this accumulates exactly
one second of audio and then one silent frame. -/
def exFramesLong : List FrameInput := List.replicate 34 exFrameSpeech ++ [exFrameSilent1]

/-- The exit the loop reaches on `exFramesLong` with threshold 1. -/
def exExitLong : ExitInfo :=
  { reason := .silence, threadStopped := false
    state := { recording := List.replicate 34 0, numSilentFrames := 1 }
    cancelFlag := false }

section LoopLemmas

/-- Unfolding of one loop iteration. -/
theorem runLoop_cons (sr th : Nat) (rt : Bool) (f : FrameInput) (rest : List FrameInput)
    (s : LoopState) :
    runLoop sr th rt (f :: rest) s =
      if th ≤ (stepVad s f).numSilentFrames ∨ f.cancel = true then
        if (stepVad s f).recording.length < sr then
          runLoop sr th rt rest (stepVad s f)
        else
          some { reason := if th ≤ (stepVad s f).numSilentFrames then .silence else .hotkey
                 threadStopped := rt && decide (th ≤ (stepVad s f).numSilentFrames)
                 state := stepVad s f
                 cancelFlag := f.cancel }
      else runLoop sr th rt rest (stepVad s f) := rfl

/-- Evaluation of `stepVad` on a speech frame. -/
theorem stepVad_speech (s : LoopState) (f : FrameInput) (hf : f.is_speech = true) :
    stepVad s f = { recording := s.recording ++ f.samples, numSilentFrames := 0 } := by
  simp [stepVad, hf]

/-- Evaluation of `stepVad` on a non-speech frame with a non-empty recording. -/
theorem stepVad_silent_pos (s : LoopState) (f : FrameInput) (hf : f.is_speech = false)
    (hr : 0 < s.recording.length) :
    stepVad s f = { recording := s.recording, numSilentFrames := s.numSilentFrames + 1 } := by
  simp [stepVad, hf, hr]

/-- Evaluation of `stepVad` on a non-speech frame with an empty recording is the
identity. -/
theorem stepVad_silent_empty (s : LoopState) (f : FrameInput) (hf : f.is_speech = false)
    (hr : s.recording = []) :
    stepVad s f = s := by
  simp [stepVad, hf, hr]

/-- The recording after one step is the old recording extended by the
frame's samples exactly when the frame was classified as speech. -/
theorem stepVad_recording (s : LoopState) (f : FrameInput) :
    (stepVad s f).recording =
      s.recording ++ (if f.is_speech = true then f.samples else []) := by
  cases hf : f.is_speech with
  | true => simp [stepVad_speech s f hf]
  | false =>
    by_cases hr : 0 < s.recording.length
    · simp [stepVad_silent_pos s f hf hr]
    · have : s.recording = [] := by
        cases hrec : s.recording with
        | nil => rfl
        | cons a l => rw [hrec] at hr; simp at hr
      simp [stepVad_silent_empty s f hf this]

/-- An empty recording always travels with a zero silence counter. -/
theorem stepVad_inv_empty (s : LoopState) (f : FrameInput)
    (h1 : s.recording = [] → s.numSilentFrames = 0) :
    (stepVad s f).recording = [] → (stepVad s f).numSilentFrames = 0 := by
  intro he
  cases hf : f.is_speech with
  | true => simp [stepVad_speech s f hf]
  | false =>
    by_cases hr : 0 < s.recording.length
    · rw [stepVad_silent_pos s f hf hr] at he
      simp only at he
      rw [he] at hr
      simp at hr
    · have hrec : s.recording = [] := by
        cases hx : s.recording with
        | nil => rfl
        | cons a l => rw [hx] at hr; simp at hr
      rw [stepVad_silent_empty s f hf hrec]
      exact h1 hrec

/-- Whenever the loop breaks, the exit data has the shape produced by source
lines 71-80: the break condition held, the reason is `Silence` exactly when
the silence threshold is met (otherwise `Hotkey pressed`), the recording
thread was stopped exactly when the threshold is met and a handle was
supplied, and the recording holds at least `sample_rate` samples. -/
theorem runLoop_exit_shape (sr th : Nat) (rt : Bool) :
    ∀ (frames : List FrameInput) (s : LoopState) (info : ExitInfo),
      runLoop sr th rt frames s = some info →
      (th ≤ info.state.numSilentFrames ∨ info.cancelFlag = true) ∧
      info.reason = (if th ≤ info.state.numSilentFrames then ExitReason.silence
                     else ExitReason.hotkey) ∧
      info.threadStopped = (rt && decide (th ≤ info.state.numSilentFrames)) ∧
      sr ≤ info.state.recording.length := by
  intro frames
  induction frames with
  | nil => intro s info h; simp [runLoop] at h
  | cons f rest ih =>
    intro s info h
    rw [runLoop_cons] at h
    by_cases hc : th ≤ (stepVad s f).numSilentFrames ∨ f.cancel = true
    · rw [if_pos hc] at h
      by_cases hl : (stepVad s f).recording.length < sr
      · rw [if_pos hl] at h
        exact ih _ _ h
      · rw [if_neg hl] at h
        injection h with h'
        subst h'
        exact ⟨hc, rfl, rfl, Nat.le_of_not_lt hl⟩
    · rw [if_neg hc] at h
      exact ih _ _ h

/-- Invariant argument for the exact-threshold property: starting from a
state in which an empty recording has a zero counter and any
at-or-over-threshold counter is shadowed by a recording below one second, a
`Silence` exit carries a counter exactly equal to the threshold. -/
theorem runLoop_silence_run_eq (sr th : Nat) (rt : Bool) :
    ∀ (frames : List FrameInput) (s : LoopState) (info : ExitInfo),
      (s.recording = [] → s.numSilentFrames = 0) →
      (s.recording ≠ [] → th ≤ s.numSilentFrames → s.recording.length < sr) →
      runLoop sr th rt frames s = some info →
      info.reason = ExitReason.silence →
      info.state.numSilentFrames = th := by
  intro frames
  induction frames with
  | nil => intro s info _ _ h _; simp [runLoop] at h
  | cons f rest ih =>
    intro s info h1 h2 h hreason
    rw [runLoop_cons] at h
    by_cases hc : th ≤ (stepVad s f).numSilentFrames ∨ f.cancel = true
    · rw [if_pos hc] at h
      by_cases hl : (stepVad s f).recording.length < sr
      · rw [if_pos hl] at h
        exact ih _ _ (stepVad_inv_empty s f h1) (fun _ _ => hl) h hreason
      · rw [if_neg hl] at h
        injection h with h'
        subst h'
        simp only at hreason ⊢
        by_cases hth : th ≤ (stepVad s f).numSilentFrames
        · cases hf : f.is_speech with
          | true =>
            rw [stepVad_speech s f hf] at hth ⊢
            simp only at hth ⊢
            omega
          | false =>
            by_cases hr : 0 < s.recording.length
            · rw [stepVad_silent_pos s f hf hr] at hth hl ⊢
              simp only at hth hl ⊢
              have hne : s.recording ≠ [] := by
                intro hx; rw [hx] at hr; simp at hr
              have : ¬ th ≤ s.numSilentFrames := fun hth' => hl (h2 hne hth')
              omega
            · have hrec : s.recording = [] := by
                cases hx : s.recording with
                | nil => rfl
                | cons a l => rw [hx] at hr; simp at hr
              rw [stepVad_silent_empty s f hf hrec] at hth ⊢
              have := h1 hrec
              omega
        · rw [if_neg hth] at hreason
          exact absurd hreason (by simp)
    · rw [if_neg hc] at h
      push_neg at hc
      exact ih _ _ (stepVad_inv_empty s f h1)
        (fun _ hth => absurd hth (Nat.not_le_of_lt hc.1)) h hreason

/-- Unfolding of `speechConcat` over a cons. -/
theorem speechConcat_cons (f : FrameInput) (fs : List FrameInput) :
    speechConcat (f :: fs) =
      (if f.is_speech = true then f.samples else []) ++ speechConcat fs := by
  cases hf : f.is_speech with
  | true => simp [speechConcat, hf]
  | false => simp [speechConcat, hf]

/-- Length of `speechConcat` when every frame has `n` samples. -/
theorem speechConcat_length (n : Nat) :
    ∀ fs : List FrameInput, (∀ f ∈ fs, f.samples.length = n) →
      (speechConcat fs).length = n * (fs.filter fun f => f.is_speech).length := by
  intro fs
  induction fs with
  | nil => intro _; simp [speechConcat]
  | cons f rest ih =>
    intro hall
    have hf := hall f (List.mem_cons_self f rest)
    have hrest := fun g hg => hall g (List.mem_cons_of_mem f hg)
    rw [speechConcat_cons]
    cases hs : f.is_speech with
    | true =>
      rw [if_pos rfl, List.length_append, ih hrest, hf]
      have hfil : List.filter (fun g => g.is_speech) (f :: rest) =
          f :: List.filter (fun g => g.is_speech) rest := by
        rw [List.filter_cons, if_pos (by simp [hs])]
      rw [hfil, List.length_cons]
      ring
    | false =>
      rw [if_neg (by simp), List.nil_append, ih hrest]
      have hfil : List.filter (fun g => g.is_speech) (f :: rest) =
          List.filter (fun g => g.is_speech) rest := by
        rw [List.filter_cons, if_neg (by simp [hs])]
      rw [hfil]

/-- The final recording of any exit is obtained from the start recording by
appending, in arrival order, the samples of exactly the speech-classified
frames of some consumed prefix of the trace. -/
theorem runLoop_recording (sr th : Nat) (rt : Bool) :
    ∀ (frames : List FrameInput) (s : LoopState) (info : ExitInfo),
      runLoop sr th rt frames s = some info →
      ∃ k, k ≤ frames.length ∧
        info.state.recording = s.recording ++ speechConcat (frames.take k) := by
  intro frames
  induction frames with
  | nil => intro s info h; simp [runLoop] at h
  | cons f rest ih =>
    intro s info h
    rw [runLoop_cons] at h
    have hstep : (stepVad s f).recording =
        s.recording ++ (if f.is_speech = true then f.samples else []) :=
      stepVad_recording s f
    by_cases hc : th ≤ (stepVad s f).numSilentFrames ∨ f.cancel = true
    · rw [if_pos hc] at h
      by_cases hl : (stepVad s f).recording.length < sr
      · rw [if_pos hl] at h
        obtain ⟨k, hk, hrec⟩ := ih _ _ h
        exact ⟨k + 1, by simpa using hk,
          by rw [hrec, hstep, List.take_succ_cons, speechConcat_cons, List.append_assoc]⟩
      · rw [if_neg hl] at h
        injection h with h'
        subst h'
        refine ⟨1, by simp, ?_⟩
        simp only [List.take_succ_cons, List.take_zero]
        rw [hstep, speechConcat_cons]
        simp [speechConcat]
    · rw [if_neg hc] at h
      obtain ⟨k, hk, hrec⟩ := ih _ _ h
      exact ⟨k + 1, by simpa using hk,
        by rw [hrec, hstep, List.take_succ_cons, speechConcat_cons, List.append_assoc]⟩

end LoopLemmas

section SessionLemmas

/-- Every terminating session is one of: an exception before/during the
loop; the unconditional `config['print_to_terminal']` subscript raising on
a falsy config; or the loop broke and the post-loop tail ran. -/
theorem record_cases (env : Env) (config : Option Config) (frames : List FrameInput)
    (rt : Bool) (out : SessionOutcome)
    (h : record_and_transcribe env config frames rt = some out) :
    (env.loopFault = true ∧ out = errorOutcome [] false) ∨
    (env.loopFault = false ∧ config = none ∧ out = errorOutcome [] false) ∨
    (env.loopFault = false ∧ ∃ c, config = some c ∧ out = afterLoop env c) := by
  rcases env with ⟨lf, wf, df, atext, lsegs⟩
  cases lf with
  | true =>
    simp only [record_and_transcribe] at h
    injection h with h'
    exact Or.inl ⟨rfl, h'.symm⟩
  | false =>
    cases config with
    | none =>
      simp only [record_and_transcribe] at h
      injection h with h'
      exact Or.inr (Or.inl ⟨rfl, rfl, h'.symm⟩)
    | some c =>
      simp only [record_and_transcribe] at h
      refine Or.inr (Or.inr ⟨rfl, c, rfl, ?_⟩)
      cases hr : runLoop c.sample_rate (num_silence_frames c.silence_duration) rt frames
          { recording := [], numSilentFrames := 0 } with
      | none => rw [hr] at h; exact absurd h (by simp)
      | some i =>
        rw [hr] at h
        injection h with h'
        exact h'.symm

/-- The four possible results of the post-loop tail: a WAV-write fault
(file leaked), a dispatch fault (file leaked), the absent-text
`result.strip()` fault with printing enabled (file already removed), or a
returned string. -/
theorem afterLoop_eq (env : Env) (c : Config) :
    (env.writeFault = true ∧ afterLoop env c = errorOutcome [] true) ∨
    (env.writeFault = false ∧ env.dispatchFault = true ∧
      afterLoop env c = errorOutcome [("transcribing", "Transcribing...")] true) ∨
    (env.writeFault = false ∧ env.dispatchFault = false ∧ c.use_api = true ∧
      env.apiText = none ∧ c.print_to_terminal = true ∧
      afterLoop env c = errorOutcome [("transcribing", "Transcribing...")] false) ∨
    (env.writeFault = false ∧ env.dispatchFault = false ∧
      ∃ r, afterLoop env c =
        { ret := some r
          statuses := [("transcribing", "Transcribing..."), ("idle", "")]
          fileExists := false }) := by
  rcases env with ⟨lf, wf, df, atext, lsegs⟩
  cases wf with
  | true => exact Or.inl ⟨rfl, rfl⟩
  | false =>
    cases df with
    | true => exact Or.inr (Or.inl ⟨rfl, rfl, rfl⟩)
    | false =>
      cases ha : c.use_api with
      | false =>
        refine Or.inr (Or.inr (Or.inr ⟨rfl, rfl,
          if pyJoin lsegs = "" then "" else process_transcription (pyStrip (pyJoin lsegs)) (some c),
          ?_⟩))
        simp [afterLoop, ha, errorOutcome]
      | true =>
        cases atext with
        | none =>
          cases hp : c.print_to_terminal with
          | true =>
            refine Or.inr (Or.inr (Or.inl ⟨rfl, rfl, rfl, rfl, rfl, ?_⟩))
            simp [afterLoop, ha, hp, errorOutcome]
          | false =>
            refine Or.inr (Or.inr (Or.inr ⟨rfl, rfl, "", ?_⟩))
            simp [afterLoop, ha, hp, errorOutcome]
        | some s =>
          refine Or.inr (Or.inr (Or.inr ⟨rfl, rfl,
            if s = "" then "" else process_transcription (pyStrip s) (some c), ?_⟩))
          simp [afterLoop, ha, errorOutcome]

end SessionLemmas

section Claims

/-- C1 (amended): the silence-frame threshold is the floor of
silence_duration / frame_duration (Python `//`, not ceil-or-exact), and
whenever the loop exits with reason Silence, exactly that many consecutive
non-speech frames have been observed since the last speech frame — never
fewer — and the recording holds at least one second of samples. -/
theorem c1_silence_threshold (silence_duration sr : Nat) (rt : Bool)
    (frames : List FrameInput) (info : ExitInfo)
    (hrun : runLoop sr (num_silence_frames silence_duration) rt frames
      { recording := [], numSilentFrames := 0 } = some info)
    (hreason : info.reason = ExitReason.silence) :
    num_silence_frames silence_duration = silence_duration / frame_duration ∧
    info.state.numSilentFrames = num_silence_frames silence_duration ∧
    sr ≤ info.state.recording.length :=
  ⟨rfl,
   runLoop_silence_run_eq sr (num_silence_frames silence_duration) rt frames _ info
     (fun _ => rfl) (fun hne _ => absurd rfl hne) hrun hreason,
   (runLoop_exit_shape sr (num_silence_frames silence_duration) rt frames _ info hrun).2.2.2⟩

/-- C1, counterexample to the claim as stated: for silence_duration = 910 ms
the code's threshold (floor division) is 30, not the ceiling 31 demanded by
"ceil-or-exact"; and the "exits ... exactly when that many consecutive
non-speech frames have been observed" biconditional fails — after one
speech frame, the silence run reaches the threshold (1, for a 30 ms
silence_duration) yet the loop does not exit, because the recording is
still below one second of samples. -/
theorem c1_counterexample :
    (num_silence_frames 910 = 30 ∧ (910 + frame_duration - 1) / frame_duration = 31 ∧
      ¬ frame_duration ∣ 910) ∧
    runLoop 2 (num_silence_frames 30) false [exFrameSpeech, exFrameSilent]
      { recording := [], numSilentFrames := 0 } = none ∧
    (stepVad (stepVad { recording := [], numSilentFrames := 0 } exFrameSpeech)
      exFrameSilent).numSilentFrames = num_silence_frames 30 := by
  refine ⟨⟨rfl, rfl, by decide⟩, by decide, rfl⟩

/-- C1, witness: a concrete silence-terminated run in which the theorem's
hypotheses hold and the silence run equals the derived threshold. -/
theorem c1_witness :
    runLoop 1 (num_silence_frames 30) false [exFrameSpeech, exFrameSilent]
        { recording := [], numSilentFrames := 0 } =
      some { reason := ExitReason.silence, threadStopped := false
             state := { recording := [0], numSilentFrames := 1 }, cancelFlag := false } ∧
    ({ recording := [0], numSilentFrames := 1 } : LoopState).numSilentFrames =
      num_silence_frames 30 :=
  ⟨by decide,
   (c1_silence_threshold 30 1 false [exFrameSpeech, exFrameSilent]
     { reason := ExitReason.silence, threadStopped := false
       state := { recording := [0], numSilentFrames := 1 }, cancelFlag := false }
     (by decide) rfl).2.1⟩

/-- C2: the loop never finalizes while the recording holds fewer than
sample_rate samples — every exit carries at least one second of audio, and
when the stop condition holds with a too-short recording the iteration is a
`continue`: the loop keeps consuming frames with the stop discarded. -/
theorem c2_min_duration (sr th : Nat) (rt : Bool) (frames : List FrameInput) :
    (∀ info, runLoop sr th rt frames { recording := [], numSilentFrames := 0 } = some info →
      sr ≤ info.state.recording.length) ∧
    (∀ (f : FrameInput) (rest : List FrameInput) (s : LoopState),
      (th ≤ (stepVad s f).numSilentFrames ∨ f.cancel = true) →
      (stepVad s f).recording.length < sr →
      runLoop sr th rt (f :: rest) s = runLoop sr th rt rest (stepVad s f)) :=
  ⟨fun info h => (runLoop_exit_shape sr th rt frames _ info h).2.2.2,
   fun f rest s hstop hlen => by rw [runLoop_cons, if_pos hstop, if_pos hlen]⟩

/-- C2, witness: a concrete exit with at least sample_rate samples, and a
concrete discarded stop (silence threshold met, recording too short, loop
continues). -/
theorem c2_witness :
    (runLoop 1 1 false [exFrameSpeech, exFrameSilent]
        { recording := [], numSilentFrames := 0 } =
      some { reason := ExitReason.silence, threadStopped := false
             state := { recording := [0], numSilentFrames := 1 }, cancelFlag := false } ∧
      1 ≤ ({ recording := [0], numSilentFrames := 1 } : LoopState).recording.length) ∧
    runLoop 3 2 false [exFrameSilent] { recording := [0], numSilentFrames := 1 } =
      runLoop 3 2 false [] (stepVad { recording := [0], numSilentFrames := 1 } exFrameSilent) :=
  ⟨⟨by decide, (c2_min_duration 1 1 false [exFrameSpeech, exFrameSilent]).1
      { reason := ExitReason.silence, threadStopped := false
        state := { recording := [0], numSilentFrames := 1 }, cancelFlag := false }
      (by decide)⟩,
   (c2_min_duration 3 2 false []).2 exFrameSilent []
     { recording := [0], numSilentFrames := 1 } (Or.inl (by decide)) (by decide)⟩

/-- C3: while only non-speech frames have arrived (recording still empty),
the silence run-length stays 0 — the state is unchanged frame after frame —
and the loop never stops on leading silence (for any positive sample
rate). -/
theorem c3_leading_silence (sr th : Nat) (rt : Bool) (fs : List FrameInput)
    (hns : ∀ f ∈ fs, f.is_speech = false) (hsr : 0 < sr) :
    List.foldl stepVad { recording := [], numSilentFrames := 0 } fs =
      { recording := [], numSilentFrames := 0 } ∧
    runLoop sr th rt fs { recording := [], numSilentFrames := 0 } = none := by
  induction fs with
  | nil => exact ⟨rfl, rfl⟩
  | cons f rest ih =>
    have hf : f.is_speech = false := hns f (List.mem_cons_self f rest)
    have hrest : ∀ g ∈ rest, g.is_speech = false :=
      fun g hg => hns g (List.mem_cons_of_mem f hg)
    have hstep : stepVad { recording := [], numSilentFrames := 0 } f =
        { recording := [], numSilentFrames := 0 } :=
      stepVad_silent_empty _ f hf rfl
    obtain ⟨ihfold, ihrun⟩ := ih hrest
    constructor
    · rw [List.foldl_cons, hstep, ihfold]
    · rw [runLoop_cons, hstep]
      by_cases hc : th ≤ ({ recording := [], numSilentFrames := 0 } : LoopState).numSilentFrames
          ∨ f.cancel = true
      · rw [if_pos hc, if_pos (by simpa using hsr)]
        exact ihrun
      · rw [if_neg hc]
        exact ihrun

/-- C3, witness: two leading non-speech frames (the second with the cancel
flag up, threshold 0) leave the state untouched and the loop running. -/
theorem c3_witness :
    ((∀ f ∈ [exFrameSilent, exFrameSilentCancel], f.is_speech = false) ∧ 0 < 1) ∧
    (List.foldl stepVad { recording := [], numSilentFrames := 0 }
        [exFrameSilent, exFrameSilentCancel] =
      { recording := [], numSilentFrames := 0 } ∧
    runLoop 1 0 false [exFrameSilent, exFrameSilentCancel]
      { recording := [], numSilentFrames := 0 } = none) :=
  ⟨⟨by decide, by decide⟩,
   c3_leading_silence 1 0 false [exFrameSilent, exFrameSilentCancel] (by decide) (by decide)⟩

/-- C4 (amended): Silence takes priority over Cancelled, not the other way
round — the exit is labeled Silence exactly when the silence threshold is
met (even if the cancel flag is also asserted, since line 79 overwrites the
line 75 assignment), labeled Cancelled ("Hotkey pressed") exactly when the
cancel flag is asserted and the threshold is not met; the companion
recording thread is signaled to stop exactly when a handle was supplied and
the reason is Silence. -/
theorem c4_exit_reason (sr th : Nat) (rt : Bool) (frames : List FrameInput) (info : ExitInfo)
    (h : runLoop sr th rt frames { recording := [], numSilentFrames := 0 } = some info) :
    (info.reason = ExitReason.silence ↔ th ≤ info.state.numSilentFrames) ∧
    (info.reason = ExitReason.hotkey ↔
      (info.cancelFlag = true ∧ ¬ th ≤ info.state.numSilentFrames)) ∧
    (info.threadStopped = true ↔ (rt = true ∧ info.reason = ExitReason.silence)) := by
  obtain ⟨hcond, hreason, hstop, -⟩ := runLoop_exit_shape sr th rt frames _ info h
  by_cases hth : th ≤ info.state.numSilentFrames
  · rw [if_pos hth] at hreason
    rw [decide_eq_true hth, Bool.and_true] at hstop
    refine ⟨iff_of_true hreason hth, iff_of_false (by rw [hreason]; simp) (by simp [hth]), ?_⟩
    rw [hstop, hreason]
    simp
  · rw [if_neg hth] at hreason
    have hcancel : info.cancelFlag = true := by
      rcases hcond with hc | hc
      · exact absurd hc hth
      · exact hc
    rw [decide_eq_false hth, Bool.and_false] at hstop
    refine ⟨iff_of_false (by rw [hreason]; simp) hth,
      iff_of_true hreason ⟨hcancel, hth⟩, ?_⟩
    rw [hstop, hreason]
    simp

/-- C4, counterexample to the claim as stated: a run in which the cancel
flag is asserted on the exiting frame while the silence threshold is also
met — the claim demands the label Cancelled, but the code labels it
Silence. -/
theorem c4_counterexample :
    runLoop 1 1 false [exFrameSpeech, exFrameSilentCancel]
        { recording := [], numSilentFrames := 0 } =
      some { reason := ExitReason.silence, threadStopped := false
             state := { recording := [0], numSilentFrames := 1 }, cancelFlag := true } ∧
    ExitReason.silence ≠ ExitReason.hotkey := by
  exact ⟨by decide, by decide⟩

/-- C4, witness: a concrete silence exit with a supplied recording-thread
handle, instantiating the amended labeling/signaling equivalences. -/
theorem c4_witness :
    runLoop 1 1 true [exFrameSpeech, exFrameSilent]
        { recording := [], numSilentFrames := 0 } =
      some { reason := ExitReason.silence, threadStopped := true
             state := { recording := [0], numSilentFrames := 1 }, cancelFlag := false } ∧
    (({ reason := ExitReason.silence, threadStopped := true
        state := { recording := [0], numSilentFrames := 1 }, cancelFlag := false } :
          ExitInfo).reason = ExitReason.silence ↔
      1 ≤ ({ reason := ExitReason.silence, threadStopped := true
             state := { recording := [0], numSilentFrames := 1 }, cancelFlag := false } :
          ExitInfo).state.numSilentFrames) :=
  ⟨by decide, (c4_exit_reason 1 1 true [exFrameSpeech, exFrameSilent] _ (by decide)).1⟩

/-- C9: the finalized audio is the concatenation, in arrival order, of
exactly the speech-classified frames of the consumed prefix of the trace;
when every frame carries frame_size samples, its length is frame_size times
the number of speech-classified frames consumed (hence a whole multiple of
the frame size). -/
theorem c9_speech_only_recording (sr th : Nat) (rt : Bool) (frames : List FrameInput)
    (info : ExitInfo)
    (hsize : ∀ f ∈ frames, f.samples.length = frame_size sr)
    (hrun : runLoop sr th rt frames { recording := [], numSilentFrames := 0 } = some info) :
    ∃ k, k ≤ frames.length ∧
      info.state.recording = speechConcat (frames.take k) ∧
      info.state.recording.length =
        frame_size sr * ((frames.take k).filter fun f => f.is_speech).length := by
  obtain ⟨k, hk, hrec⟩ := runLoop_recording sr th rt frames _ info hrun
  rw [List.nil_append] at hrec
  refine ⟨k, hk, hrec, ?_⟩
  rw [hrec]
  exact speechConcat_length (frame_size sr) (frames.take k)
    (fun f hf => hsize f (List.take_subset k frames hf))

/-- C9, witness: thirty-four one-sample speech frames then one non-speech
frame, at sample rate 34 (frame size 1): the recording is exactly the
concatenation of the speech frames, of length 34 = 1 × 34. -/
theorem c9_witness :
    ((∀ f ∈ exFramesLong, f.samples.length = frame_size 34) ∧
      runLoop 34 1 false exFramesLong { recording := [], numSilentFrames := 0 } =
        some exExitLong) ∧
    ∃ k, k ≤ exFramesLong.length ∧
      exExitLong.state.recording = speechConcat (exFramesLong.take k) ∧
      exExitLong.state.recording.length =
        frame_size 34 * ((exFramesLong.take k).filter fun f => f.is_speech).length :=
  ⟨⟨by decide, by decide⟩,
   c9_speech_only_recording 34 1 false exFramesLong exExitLong (by decide) (by decide)⟩

/-- C5 (amended): the temporary WAV file is gone whenever the session
returns a string, and also on faulted paths whose exception precedes file
creation or follows its removal; but a fault while writing the WAV data or
during the transcription dispatch — after creation, before removal — leaves
the file on disk: the file survives exactly those faulted paths. -/
theorem c5_temp_file (env : Env) (c : Config) (frames : List FrameInput) (rt : Bool)
    (out : SessionOutcome)
    (h : record_and_transcribe env (some c) frames rt = some out) :
    (out.ret ≠ none → out.fileExists = false) ∧
    (out.fileExists = true ↔
      (env.loopFault = false ∧ (env.writeFault = true ∨ env.dispatchFault = true))) := by
  rcases record_cases env (some c) frames rt out h with
    ⟨hl, rfl⟩ | ⟨-, hcfg, -⟩ | ⟨hl, c', -, rfl⟩
  · exact ⟨fun _ => rfl, iff_of_false (by simp [errorOutcome]) (by simp [hl])⟩
  · exact absurd hcfg (by simp)
  · rcases afterLoop_eq env c' with
      ⟨hw, he⟩ | ⟨hw, hd, he⟩ | ⟨hw, hd, -, -, -, he⟩ | ⟨hw, hd, r, he⟩
    · rw [he]
      exact ⟨fun hne => (hne rfl).elim, iff_of_true rfl ⟨hl, Or.inl hw⟩⟩
    · rw [he]
      exact ⟨fun hne => (hne rfl).elim, iff_of_true rfl ⟨hl, Or.inr hd⟩⟩
    · rw [he]
      exact ⟨fun _ => rfl,
        iff_of_false (by simp [errorOutcome]) (by rintro ⟨-, hx | hx⟩ <;> simp_all)⟩
    · rw [he]
      exact ⟨fun _ => rfl,
        iff_of_false (by simp) (by rintro ⟨-, hx | hx⟩ <;> simp_all)⟩

/-- C5, counterexample to the claim as stated: a session faulted at the
transcription dispatch ends with the temporary file still on disk, so the
file is not deleted on every faulted path. -/
theorem c5_counterexample :
    (record_and_transcribe exEnvDispatchFault (some exConfig) [exFrameSpeech, exFrameSilent]
        false).map (fun o => o.fileExists) = some true := by
  decide

/-- C5, witness: a fault-free session returns a string and ends with the
file removed. -/
theorem c5_witness :
    record_and_transcribe exEnvOk (some exConfig) [exFrameSpeech, exFrameSilent] false =
      some { ret := some "hello"
             statuses := [("transcribing", "Transcribing..."), ("idle", "")]
             fileExists := false } ∧
    (({ ret := some "hello"
        statuses := [("transcribing", "Transcribing..."), ("idle", "")]
        fileExists := false } : SessionOutcome).ret ≠ none →
      ({ ret := some "hello"
         statuses := [("transcribing", "Transcribing..."), ("idle", "")]
         fileExists := false } : SessionOutcome).fileExists = false) :=
  ⟨by decide,
   (c5_temp_file exEnvOk exConfig [exFrameSpeech, exFrameSilent] false
     { ret := some "hello"
       statuses := [("transcribing", "Transcribing..."), ("idle", "")]
       fileExists := false } (by decide)).1⟩

/-- C6: the post-processor equals the spec's strip-then-space-then-lowercase
pipeline for every text and configuration (each transform gated by its
flag, no other change; a falsy config is the identity), and the three
spec examples hold. -/
theorem c6_post_processor :
    (∀ (t : String) (cfg : Config),
      process_transcription t (some cfg) =
        process_spec cfg.remove_trailing_period cfg.add_trailing_space
          cfg.remove_capitalization t) ∧
    (∀ t : String, process_transcription t none = t) ∧
    process_transcription "Hello." (some { exConfig with remove_trailing_period := true }) =
      "Hello" ∧
    process_transcription "hi" (some { exConfig with add_trailing_space := true }) = "hi " ∧
    process_transcription "Hi There" (some { exConfig with remove_capitalization := true }) =
      "hi there" :=
  ⟨fun _ _ => rfl, fun _ => rfl, by decide, by decide, by decide⟩

/-- C7: every injected fault (capture/classification, file writing,
dispatch, or the falsy-config subscript) is absorbed at the session
boundary into a terminal `('error', 'Error')` status with no returned
transcript; and in every terminating session the caller can distinguish the
outcomes: the return value is `None` exactly when the last status pushed is
the error status (otherwise a string — possibly empty — is returned). -/
theorem c7_error_boundary (env : Env) (config : Option Config) (frames : List FrameInput)
    (rt : Bool) (out : SessionOutcome)
    (h : record_and_transcribe env config frames rt = some out) :
    (out.ret = none ↔ out.statuses.getLast? = some ("error", "Error")) ∧
    ((env.loopFault = true ∨ env.writeFault = true ∨ env.dispatchFault = true ∨
        config = none) →
      out.ret = none ∧ out.statuses.getLast? = some ("error", "Error")) := by
  rcases record_cases env config frames rt out h with
    ⟨hl, rfl⟩ | ⟨hl, hcfg, rfl⟩ | ⟨hl, c, hcfg, rfl⟩
  · exact ⟨by decide, fun _ => by decide⟩
  · exact ⟨by decide, fun _ => by decide⟩
  · rcases afterLoop_eq env c with
      ⟨hw, he⟩ | ⟨hw, hd, he⟩ | ⟨hw, hd, ha, hat, hp, he⟩ | ⟨hw, hd, r, he⟩
    · rw [he]; exact ⟨by decide, fun _ => by decide⟩
    · rw [he]; exact ⟨by decide, fun _ => by decide⟩
    · rw [he]; exact ⟨by decide, fun _ => by decide⟩
    · rw [he]
      refine ⟨iff_of_false (by simp) ?_, ?_⟩
      · intro hx
        have hx' : some (("idle", "") : String × String) = some ("error", "Error") := hx
        injection hx' with hpair
        exact absurd hpair (by decide)
      rintro (hx | hx | hx | hx)
      · rw [hl] at hx; exact absurd hx (by simp)
      · rw [hw] at hx; exact absurd hx (by simp)
      · rw [hd] at hx; exact absurd hx (by simp)
      · rw [hcfg] at hx; exact absurd hx (by simp)

/-- C7, witness: a fault-free session returns a transcript and the
distinguishability equivalence holds at it. -/
theorem c7_witness :
    record_and_transcribe exEnvOk (some exConfig) [exFrameSpeech, exFrameSilent] false =
      some { ret := some "hello"
             statuses := [("transcribing", "Transcribing..."), ("idle", "")]
             fileExists := false } ∧
    (({ ret := some "hello"
        statuses := [("transcribing", "Transcribing..."), ("idle", "")]
        fileExists := false } : SessionOutcome).ret = none ↔
      ({ ret := some "hello"
         statuses := [("transcribing", "Transcribing..."), ("idle", "")]
         fileExists := false } : SessionOutcome).statuses.getLast? =
        some ("error", "Error")) :=
  ⟨by decide,
   (c7_error_boundary exEnvOk (some exConfig) [exFrameSpeech, exFrameSilent] false
     { ret := some "hello"
       statuses := [("transcribing", "Transcribing..."), ("idle", "")]
       fileExists := false } (by decide)).1⟩

/-- C8 (amended): with the remote branch selected and no fault injected,
an empty text field — and an absent text field with terminal printing
disabled — yields the empty string; but an absent text field with terminal
printing enabled makes line 132's `result.strip()` raise, so the session
ends in the error status with no transcript instead of returning the empty
string. -/
theorem c8_absent_text (env : Env) (c : Config) (frames : List FrameInput) (rt : Bool)
    (out : SessionOutcome)
    (hl : env.loopFault = false) (hw : env.writeFault = false)
    (hd : env.dispatchFault = false) (ha : c.use_api = true)
    (h : record_and_transcribe env (some c) frames rt = some out) :
    (env.apiText = some "" → out.ret = some "") ∧
    (env.apiText = none → c.print_to_terminal = false → out.ret = some "") ∧
    (env.apiText = none → c.print_to_terminal = true →
      out.ret = none ∧ out.statuses.getLast? = some ("error", "Error")) := by
  rcases record_cases env (some c) frames rt out h with
    ⟨hl', -⟩ | ⟨-, hcfg, -⟩ | ⟨-, c', hc, rfl⟩
  · rw [hl] at hl'; exact absurd hl' (by simp)
  · exact absurd hcfg (by simp)
  · injection hc with hc'
    subst hc'
    refine ⟨?_, ?_, ?_⟩
    · intro hat
      simp [afterLoop, hw, hd, ha, hat]
    · intro hat hp
      simp [afterLoop, hw, hd, ha, hat, hp]
    · intro hat hp
      simp [afterLoop, hw, hd, ha, hat, hp, errorOutcome]

/-- C8, counterexample to the claim as stated: with the remote response
carrying no text and `print_to_terminal` enabled, the session does not
return the empty string — it ends in the error status with no return
value. -/
theorem c8_counterexample :
    (record_and_transcribe exEnvNoText (some exConfigPrint) [exFrameSpeech, exFrameSilent]
        false).map (fun o => (o.ret, o.statuses.getLast?)) =
      some (none, some ("error", "Error")) := by
  decide

/-- C8, witness: absent text with printing disabled yields the empty
string. -/
theorem c8_witness :
    record_and_transcribe exEnvNoText (some exConfig) [exFrameSpeech, exFrameSilent] false =
      some { ret := some ""
             statuses := [("transcribing", "Transcribing..."), ("idle", "")]
             fileExists := false } ∧
    ({ ret := some ""
       statuses := [("transcribing", "Transcribing..."), ("idle", "")]
       fileExists := false } : SessionOutcome).ret = some "" :=
  ⟨by decide,
   (c8_absent_text exEnvNoText exConfig [exFrameSpeech, exFrameSilent] false
     { ret := some ""
       statuses := [("transcribing", "Transcribing..."), ("idle", "")]
       fileExists := false } rfl rfl rfl rfl (by decide)).2.1 rfl rfl⟩

/-- C10: calling with a falsy config always terminates in the error outcome
— the unconditional `config['print_to_terminal']` subscript raises before
the loop, the boundary handler reports `('error', 'Error')`, and no
transcript is returned — so the per-option fallback defaults are
unreachable on any successful path. -/
theorem c10_falsy_config (env : Env) (frames : List FrameInput) (rt : Bool) :
    record_and_transcribe env none frames rt =
      some { ret := none, statuses := [("error", "Error")], fileExists := false } := by
  rcases env with ⟨lf, wf, df, atext, lsegs⟩
  cases lf <;> rfl

end Claims

end WhisperWriter
